import Mathlib

/-!
Shallow embedding of `healthcaremcp.py`, a healthcare MCP server exposing
resource / tool / prompt handlers over a Supabase data-store client and an
httpx HTTP client, with an env-var startup gate and a lifespan context
manager.

Modelling conventions:
* Python exceptions are modelled with `Except Err`, where `Err` is the
  `str(e)` rendering of the exception; a `try/except Exception` block is the
  explicit `catchToMessage` match.
* `os.getenv` is a function `Env := String → Option String`; Python's
  truthiness test `not os.getenv(k)` is `(env k).getD "" = ""` (absent or
  empty string).
* Data-store rows are string-keyed records of rendered string values
  (`Row := List (String × String)`); `row.get(k, default)` is `rowGet`.
* JSON values from HTTP responses are the `Json` inductive; Python dynamic
  operations on them (`.get`, subscripting, slicing, iteration, `float`)
  are the fallible `py*` helpers, faulting exactly where Python raises.
* The external Supabase service is modelled by `storeExec`, which executes
  a `QuerySpec` (table, eq-filters, optional descending order) over a store
  of rows; it is a model of the external collaborator, not repository code.
* The lifespan yields the `AppContext` dataclass (lines 17-20), but every
  client-touching handler fetches its client by subscripting that value
  (`lifespan_context["supabase"]` / `["http_client"]`), before its `try`
  block.  A dataclass defines no `__getitem__`, so this raises `TypeError`
  on every invocation; `lifespan_context_getitem` models that, and the
  source-named handlers prepend it to their `*_contained` parts, which
  model the code below the fetch.
-/

/-- A raised Python exception, represented by its `str(e)` rendering. -/
abbrev Err := String

/-- The process environment as seen by `os.getenv`. -/
abbrev Env := String → Option String

/-- A data-store row: string-keyed record of rendered string values. -/
abbrev Row := List (String × String)

/-- Python `row.get(key, default)` on a record row. -/
def rowGet (r : Row) (k : String) (d : String) : String :=
  (List.lookup k r).getD d

/-- A Supabase query built by a `.table(...).select(...).eq(...).order(...)`
chain: target table, select list, equality filters, and an optional
`(column, descending)` ordering key. -/
structure QuerySpec where
  table : String
  sel : String
  eqFilters : List (String × String)
  orderBy : Option (String × Bool)
deriving DecidableEq, Repr

/-- A Supabase response: its `.data` list of rows. -/
structure QueryResponse where
  data : List Row
deriving DecidableEq, Repr

/-- A JSON value as returned by `response.json()`.  Numeric values are
modelled as integers (the claims never depend on fractional parts). -/
inductive Json where
  | null
  | bool (b : Bool)
  | num (n : Int)
  | str (s : String)
  | arr (xs : List Json)
  | obj (fields : List (String × Json))

/-- Python truthiness of a JSON value (`if not x`). -/
def pyTruthy : Json → Bool
  | .null => false
  | .bool b => b
  | .num n => n != 0
  | .str s => s != ""
  | .arr xs => !xs.isEmpty
  | .obj fs => !fs.isEmpty

mutual

/-- Python `str(x)` rendering of a JSON value. -/
def pyStr : Json → String
  | .null => "None"
  | .bool true => "True"
  | .bool false => "False"
  | .num n => toString n
  | .str s => s
  | .arr xs => "[" ++ pyStrJoin xs ++ "]"
  | .obj fs => "\x7b" ++ pyStrObjJoin fs ++ "\x7d"

/-- Comma-separated rendering of a JSON array's elements. -/
def pyStrJoin : List Json → String
  | [] => ""
  | [x] => pyStr x
  | x :: rest => pyStr x ++ ", " ++ pyStrJoin rest

/-- Comma-separated rendering of a JSON object's fields. -/
def pyStrObjJoin : List (String × Json) → String
  | [] => ""
  | [p] => p.1 ++ ": " ++ pyStr p.2
  | p :: rest => p.1 ++ ": " ++ pyStr p.2 ++ ", " ++ pyStrObjJoin rest

end

/-- Python `d.get(key, default)`: defined on dicts only, raises
`AttributeError` on anything else. -/
def pyGet (j : Json) (k : String) (d : Json) : Except Err Json :=
  match j with
  | .obj fs => .ok ((List.lookup k fs).getD d)
  | _ => .error "AttributeError: object has no attribute get"

/-- Python `d[key]`: dict subscription, raising `KeyError` / `TypeError`
exactly where Python does. -/
def pyIndex (j : Json) (k : String) : Except Err Json :=
  match j with
  | .obj fs =>
    match List.lookup k fs with
    | some v => .ok v
    | none => .error ("KeyError: " ++ k)
  | _ => .error "TypeError: object is not subscriptable"

/-- Python `xs[0]`: first element of a sequence (`IndexError` when empty,
`TypeError` on a non-sequence). -/
def pyIndexZero (j : Json) : Except Err Json :=
  match j with
  | .arr (x :: _) => .ok x
  | .arr [] => .error "IndexError: list index out of range"
  | .str s =>
    match s.data with
    | c :: _ => .ok (.str (String.mk [c]))
    | [] => .error "IndexError: string index out of range"
  | _ => .error "TypeError: object is not subscriptable"

/-- Python `xs[:n]`: slicing a sequence (`TypeError` on a non-sequence). -/
def pySliceTake (n : Nat) (j : Json) : Except Err (List Json) :=
  match j with
  | .arr xs => .ok (xs.take n)
  | .str s => .ok ((s.data.take n).map (fun c => .str (String.mk [c])))
  | _ => .error "TypeError: object is not subscriptable"

/-- Python iteration `for x in j` (`TypeError` on non-iterables; iterating
a dict yields its keys, iterating a string yields its characters). -/
def pyIter (j : Json) : Except Err (List Json) :=
  match j with
  | .arr xs => .ok xs
  | .str s => .ok (s.data.map (fun c => .str (String.mk [c])))
  | .obj fs => .ok (fs.map (fun p => .str p.1))
  | _ => .error "TypeError: object is not iterable"

/-- Python `int(float(x))` as used on the rating average (`ValueError` on a
non-numeric string, `TypeError` on non-convertible values). -/
def pyIntOfFloat (j : Json) : Except Err Int :=
  match j with
  | .num n => .ok n
  | .bool b => .ok (if b then 1 else 0)
  | .str s =>
    match s.toInt? with
    | some n => .ok n
    | none => .error ("ValueError: could not convert string to float: " ++ s)
  | _ => .error "TypeError: float() argument must be a string or a real number"

/-- An HTTP request issued through the shared httpx client. -/
structure HttpRequest where
  url : String
  params : List (String × String)
  headers : List (String × String)
  jsonPayload : Option Json

/-- An HTTP response: status code and the (fallible) result of `.json()`. -/
structure HttpResponse where
  status : Nat
  jsonBody : Except Err Json

/-- httpx `response.raise_for_status()`: raises on 4xx/5xx statuses. -/
def raise_for_status (r : HttpResponse) : Except Err Unit :=
  if 400 ≤ r.status then .error ("HTTP status error " ++ toString r.status)
  else .ok ()

/-- A Python `try: body except Exception as e: return render(e)` block:
every fault of the body is converted into an ordinary string result. -/
def catchToMessage (render : Err → String) (body : Except Err String) : Except Err String :=
  match body with
  | .ok s => .ok s
  | .error e => .ok (render e)

/-- Character comparison by code point, strictly less. -/
def charLtB (a b : Char) : Bool := a.toNat < b.toNat

/-- Lexicographic order on character lists (shorter prefixes first), as a
boolean; evaluable by the kernel. -/
def listLeB : List Char → List Char → Bool
  | [], _ => true
  | _ :: _, [] => false
  | x :: xs, y :: ys =>
    charLtB x y || (x.toNat == y.toNat && listLeB xs ys)

/-- Lexicographic order on strings, as a boolean. -/
def strLeB (a b : String) : Bool := listLeB a.data b.data

/-- The string `pat` occurs inside the string `s`. -/
def strContains (s pat : String) : Prop := pat.data <:+: s.data

instance (s pat : String) : Decidable (strContains s pat) :=
  List.decidableInfix pat.data s.data

/-- A stored data-store state: rows tagged with the collection that holds
them, in insertion order. -/
abbrev Store := List (String × Row)

/-- A row satisfies every equality filter of a query. -/
def rowMatches (filters : List (String × String)) (r : Row) : Bool :=
  filters.all (fun f => List.lookup f.1 r == some f.2)

/-- The value a query ordering compares: the named column, empty when the
row lacks it. -/
def orderKey (col : String) (r : Row) : String :=
  (List.lookup col r).getD ""

/-- Row ordering for a descending sort on `col`: `a` precedes `b` when the
key of `b` is at most the key of `a`. -/
def descOn (col : String) (a b : Row) : Prop :=
  strLeB (orderKey col b) (orderKey col a) = true

instance (col : String) : DecidableRel (descOn col) := fun a b =>
  inferInstanceAs (Decidable (_ = true))

/-- Row ordering for an ascending sort on `col`. -/
def ascOn (col : String) (a b : Row) : Prop :=
  strLeB (orderKey col a) (orderKey col b) = true

instance (col : String) : DecidableRel (ascOn col) := fun a b =>
  inferInstanceAs (Decidable (_ = true))

/-- Model of the external Supabase collaborator: executing a query spec
over a store filters the spec's table by the equality filters (preserving
insertion order) and applies the requested ordering, if any. -/
def storeExec (store : Store) (q : QuerySpec) : QueryResponse :=
  let rows := (store.filter (fun tr => tr.1 == q.table && rowMatches q.eqFilters tr.2)).map (·.2)
  match q.orderBy with
  | none => ⟨rows⟩
  | some (col, true) => ⟨List.insertionSort (descOn col) rows⟩
  | some (col, false) => ⟨List.insertionSort (ascOn col) rows⟩

/-- A data-store client backed by a concrete store; it executes every query
without faulting. -/
def dbExec (store : Store) : QuerySpec → Except Err QueryResponse :=
  fun q => .ok (storeExec store q)

/-- The query built at line 60 of the source:
`supabase.table("users").select("*").eq("id", user_id).execute()`. -/
def users_query (user_id : String) : QuerySpec :=
  ⟨"users", "*", [("id", user_id)], none⟩

/-- The profile template rendered at lines 63–71 of the source. -/
def profile_template (user_data : Row) : String :=
  "\nUser Profile:\n- Name: " ++ rowGet user_data "full_name" "N/A" ++
  "\n- Email: " ++ rowGet user_data "email" "N/A" ++
  "\n- Age: " ++ rowGet user_data "age" "N/A" ++
  "\n- Medical History: " ++ rowGet user_data "medical_history" "No history recorded" ++
  "\n- Allergies: " ++ rowGet user_data "allergies" "None reported" ++
  "\n- Current Medications: " ++ rowGet user_data "current_medications" "None reported" ++
  "\n"

/-- Body of the `user://profile/{user_id}` resource (the `try` block,
lines 59-73): one query, then either the rendered first row or the
not-found string. -/
def get_user_profile_body (execute : QuerySpec → Except Err QueryResponse)
    (user_id : String) : Except Err String := do
  let response ← execute (users_query user_id)
  match response.data with
  | user_data :: _ => pure (profile_template user_data)
  | [] => pure ("No user found with ID: " ++ user_id)

/-- The contained part of `get_user_profile` (lines 59-75, below the
client fetch): its body with every fault converted to an error string,
per the source's `except` clause. -/
def get_user_profile_contained (execute : QuerySpec → Except Err QueryResponse)
    (user_id : String) : Except Err String :=
  catchToMessage (fun e => "Error retrieving user profile: " ++ e)
    (get_user_profile_body execute user_id)

/-- The query built at line 85 of the source: `supabase.table("medical_records")
.select("*").eq("user_id", user_id).order("created_at", desc=True).execute()`. -/
def medical_records_query (user_id : String) : QuerySpec :=
  ⟨"medical_records", "*", [("user_id", user_id)], some ("created_at", true)⟩

/-- One medical-history record rendered per lines 89–95 of the source, with
the fixed placeholder of each missing field and the trailing `---`
record delimiter. -/
def history_record_template (record : Row) : String :=
  "\nDate: " ++ rowGet record "created_at" "Unknown" ++
  "\nCondition: " ++ rowGet record "condition" "N/A" ++
  "\nTreatment: " ++ rowGet record "treatment" "N/A" ++
  "\nDoctor: " ++ rowGet record "doctor_name" "N/A" ++
  "\nNotes: " ++ rowGet record "notes" "No notes" ++
  "\n---"

/-- Body of the `user://medical-history/{user_id}` resource (the `try`
block, lines 84-98). -/
def get_user_medical_history_body (execute : QuerySpec → Except Err QueryResponse)
    (user_id : String) : Except Err String := do
  let response ← execute (medical_records_query user_id)
  match response.data with
  | [] => pure ("No medical history found for user: " ++ user_id)
  | records =>
    pure ("Medical History for User " ++ user_id ++ ":\n" ++
      String.intercalate "\n" (records.map history_record_template))

/-- The contained part of `get_user_medical_history` (lines 84-100,
below the client fetch). -/
def get_user_medical_history_contained (execute : QuerySpec → Except Err QueryResponse)
    (user_id : String) : Except Err String :=
  catchToMessage (fun e => "Error retrieving medical history: " ++ e)
    (get_user_medical_history_body execute user_id)

/-- The BetterDoctor search request built at lines 121–127 of the source;
the API key is read from configuration at call time. -/
def search_request (api_key : String) (latitude longitude : Int)
    (specialty : String) (radius_miles : Int) : HttpRequest :=
  { url := "https://api.betterdoctor.com/2016-05-02/doctors"
    params := [("location", toString latitude ++ "," ++ toString longitude ++ "," ++ toString radius_miles),
               ("specialty_uid", specialty), ("limit", "10"), ("user_key", api_key)]
    headers := []
    jsonPayload := none }

/-- One practitioner entry of the doctor-search template (lines 137–154 of
the source), with every dynamic JSON access faulting exactly where Python
would. -/
def render_doctor (i : Nat) (doctor : Json) : Except Err String := do
  let profile ← pyGet doctor "profile" (.obj [])
  let practices ← pyGet doctor "practices" (.arr [.obj []])
  let practice ← if pyTruthy practices then pyIndexZero practices else pure (Json.obj [])
  let specialties ← pyGet doctor "specialties" (.arr [])
  let sitems ← pyIter specialties
  let snames ← sitems.mapM (fun s => pyGet s "name" (.str ""))
  let first_name ← pyGet profile "first_name" (.str "")
  let last_name ← pyGet profile "last_name" (.str "")
  let practice_name ← pyGet practice "name" (.str "N/A")
  let visit_address ← pyGet practice "visit_address" (.obj [])
  let street ← pyGet visit_address "street" (.str "N/A")
  let phones ← pyGet practice "phones" (.arr [.obj []])
  let phone0 ← pyIndexZero phones
  let number ← pyGet phone0 "number" (.str "N/A")
  let distance ← pyGet practice "distance" (.str "N/A")
  let rating ← pyGet practice "rating" (.obj [])
  let average ← pyGet rating "average" (.num 0)
  let stars ← pyIntOfFloat average
  let website ← pyGet practice "website" (.str "No website available")
  let accepts ← pyGet practice "accepts_new_patients" Json.null
  pure ("\n" ++ toString i ++ ". Dr. " ++ pyStr first_name ++ " " ++ pyStr last_name ++
    "\n   Specialty: " ++ String.intercalate ", " (snames.map pyStr) ++
    "\n   Practice: " ++ pyStr practice_name ++
    "\n   Address: " ++ pyStr street ++
    "\n   Phone: " ++ pyStr number ++
    "\n   Distance: " ++ pyStr distance ++ " miles" ++
    "\n   Rating: " ++ String.mk (List.replicate stars.toNat '★') ++
    "\n   \n   Website: " ++ pyStr website ++
    "\n   Accepts New Patients: " ++ (if pyTruthy accepts then "Yes" else "No") ++ "\n")

/-- The `doctors` accumulation loop of lines 136–154: renders each
enumerated practitioner, propagating the first fault. -/
def render_doctors : List (Nat × Json) → Except Err (List String)
  | [] => .ok []
  | p :: rest => do
    let s ← render_doctor p.1 p.2
    let ss ← render_doctors rest
    pure (s :: ss)

/-- Closing line appended to the doctor-search result (line 157). -/
def search_footer : String :=
  "\n\n📅 Would you like to book an appointment with any of these doctors? I can help you with the appointment workflow!"

/-- The `try` block of `search_nearby_doctors` (lines 120-159): issue the
request, raise for status, parse, truncate to the first 5 practitioners and
render. -/
def search_body (http : HttpRequest → Except Err HttpResponse)
    (req : HttpRequest) : Except Err String := do
  let response ← http req
  let _ ← raise_for_status response
  let data ← response.jsonBody
  let dlist ← pyGet data "data" Json.null
  if pyTruthy dlist = false then
    pure "No doctors found in your area. Please try expanding your search radius."
  else do
    let dlist2 ← pyIndex data "data"
    let docs ← pySliceTake 5 dlist2
    let entries ← render_doctors (List.enumFrom 1 docs)
    pure ("🏥 Nearby Doctors Found:\n" ++ String.intercalate "\n" entries ++ search_footer)

/-- The part of `search_nearby_doctors` below the line-113 client fetch
(lines 116-162): key check before any request, then the `try` body.
Returns the result together with the list of HTTP requests issued. -/
def search_nearby_doctors_contained (env : Env) (http : HttpRequest → Except Err HttpResponse)
    (latitude longitude : Int) (specialty : String) (radius_miles : Int) :
    Except Err String × List HttpRequest :=
  if (env "DOCTOR_API_KEY").getD "" = "" then
    (.ok "Doctor API key not configured. Please contact administrator.", [])
  else
    let req := search_request ((env "DOCTOR_API_KEY").getD "") latitude longitude specialty radius_miles
    (catchToMessage (fun e => "Error searching for doctors: " ++ e) (search_body http req), [req])

/-- Python `str()` of an optional environment value (`None` renders as the
string `None`), used for the availability `Bearer` header. -/
def pyStrOpt : Option String → String
  | some s => s
  | none => "None"

/-- The appointment-slots request of lines 172–175: built from the key as
read (no missing-key check) and the doctor id. -/
def availability_request (env : Env) (doctor_id : String) : HttpRequest :=
  { url := "https://api.betterdoctor.com/2016-05-02/doctors/" ++ doctor_id ++ "/appointments"
    params := []
    headers := [("Authorization", "Bearer " ++ pyStrOpt (env "DOCTOR_API_KEY"))]
    jsonPayload := none }

/-- The hardcoded mock availability text of lines 178–195. -/
def mock_availability (doctor_id : String) : String :=
  "\n📅 Available Appointment Slots for Dr. " ++ doctor_id ++ ":\n\n" ++
  "This Week:\n- Tomorrow 2:00 PM - 15 min consultation\n- Thursday 10:30 AM - 30 min consultation  \n- Friday 3:45 PM - 15 min consultation\n\n" ++
  "Next Week:\n- Monday 9:00 AM - 30 min consultation\n- Tuesday 1:15 PM - 15 min consultation\n- Wednesday 4:30 PM - 30 min consultation\n\n" ++
  "🔗 Book Online: [Click here to book directly](https://doctorbooking.example.com/book/" ++ doctor_id ++ ")\n" ++
  "📞 Call to Book: (555) 123-4567\n\nWould you like me to help you book one of these appointments?\n"

/-- The part of `get_doctor_availability` below the line-168 client
fetch (lines 170-197): reads the key (without checking it), issues the
request, ignores the response and returns the mock text; faults are
contained.  Returns the result with the requests issued. -/
def get_doctor_availability_contained (env : Env) (http : HttpRequest → Except Err HttpResponse)
    (doctor_id : String) : Except Err String × List HttpRequest :=
  let req := availability_request env doctor_id
  (catchToMessage (fun e => "Error retrieving doctor availability: " ++ e)
    (do
      let _response ← http req
      pure (mock_availability doctor_id)), [req])

/-- The SkinVision request of lines 212–224, carrying the base64 image
payload and the bearer key. -/
def analyze_request (api_key : String) (image_data : String) : HttpRequest :=
  { url := "https://api.skinvision.com/v1/analyze"
    params := []
    headers := [("Authorization", "Bearer " ++ api_key), ("Content-Type", "application/json")]
    jsonPayload := some (.obj [("image", .str image_data),
      ("metadata", .obj [("body_part", .str "unknown"), ("image_quality", .str "auto_detect")])]) }

/-- The recommendations bullet loop of lines 246–247. -/
def recommendation_lines : List Json → String
  | [] => ""
  | r :: rest => "• " ++ pyStr r ++ "\n" ++ recommendation_lines rest

/-- The analysis template of lines 236–254. -/
def analysis_template (confidence condition risk_level : Json)
    (recs : List Json) : String :=
  "\n🔬 Skin Condition Analysis Results:\n\n📊 Analysis Confidence: " ++ pyStr confidence ++
  "%\n🏷️ Potential Condition: " ++ pyStr condition ++
  "\n⚠️ Risk Level: " ++ pyStr risk_level ++
  "\n\n📋 Recommendations:\n" ++
  recommendation_lines recs ++
  "\n\n⚠️ IMPORTANT DISCLAIMER: This analysis is for informational purposes only and should not replace professional medical advice. Please consult with a dermatologist for proper diagnosis and treatment.\n\n🏥 Would you like me to help you find nearby dermatologists for a professional consultation?\n"

/-- The request-and-parse part of `analyze_skin_condition_image_contained`
(lines 226–256). -/
def analyze_body (http : HttpRequest → Except Err HttpResponse)
    (req : HttpRequest) : Except Err String := do
  let response ← http req
  let _ ← raise_for_status response
  let result ← response.jsonBody
  let confidence ← pyGet result "confidence" (.num 0)
  let condition ← pyGet result "predicted_condition" (.str "Unknown")
  let risk_level ← pyGet result "risk_level" (.str "Unknown")
  let recsJson ← pyGet result "recommendations" (.arr [])
  let recs ← pyIter recsJson
  pure (analysis_template confidence condition risk_level recs)

/-- The part of `analyze_skin_condition_image` below the line-203 client
fetch (lines 205-259).  In the source the missing-key check sits at the
top of the `try` block; the check itself cannot raise, so it is hoisted in
front of the catch here.  Returns the result with the requests issued. -/
def analyze_skin_condition_image_contained (env : Env) (http : HttpRequest → Except Err HttpResponse)
    (image_data : String) : Except Err String × List HttpRequest :=
  if (env "SKIN_ANALYSIS_API_KEY").getD "" = "" then
    (.ok "Skin analysis API not configured. Please contact administrator.", [])
  else
    let req := analyze_request ((env "SKIN_ANALYSIS_API_KEY").getD "") image_data
    (catchToMessage
      (fun e => "Error analyzing skin condition: " ++ e ++ ". Please ensure the image is clear and try again.")
      (analyze_body http req), [req])

/-- The `create_appointment_booking_resource` tool (lines 262–293): a pure
template over its two parameters, no client access, no `try` needed. -/
def create_appointment_booking_resource (doctor_name practice_website : String) : String :=
  "\n📋 Appointment Booking Options for " ++ doctor_name ++ ":\n\n" ++
  "🌐 Online Booking:\n┌─────────────────────────────────────┐\n│  📅 Book Online                     │\n│  " ++
  practice_website ++
  "                 │\n│  ✅ Instant confirmation            │\n│  ⏰ 24/7 availability               │\n└─────────────────────────────────────┘\n\n" ++
  "📞 Phone Booking:\n┌─────────────────────────────────────┐\n│  ☎️ Call Practice Directly          │\n│  📞 (555) 123-4567                  │\n│  🕒 Mon-Fri 8AM-5PM                 │\n│  💬 Speak with receptionist         │\n└─────────────────────────────────────┘\n\n" ++
  "📱 Mobile App:\n┌─────────────────────────────────────┐\n│  📲 Download Practice App           │\n│  🔍 Search \"[Practice Name] app\"    │\n│  📅 Mobile-friendly booking         │\n│  📬 Appointment reminders           │\n└─────────────────────────────────────┘\n\n" ++
  "💡 Pro Tip: Online booking is usually fastest and gives you real-time availability!\n"

/-- A message role of the MCP prompt protocol. -/
inductive Role where
  | user
  | assistant
deriving DecidableEq, Repr

/-- One message of a prompt's ordered conversation script. -/
structure Message where
  role : Role
  content : String
deriving DecidableEq, Repr

/-- First user message of the skincare consultation (lines 301–308), with
Python truthiness defaults on the three parameters. -/
def skincare_user_message (skin_type concerns budget : String) : String :=
  "\nI'm looking for skincare product recommendations. Here are my details:\n- Skin Type: " ++
  (if skin_type ≠ "" then skin_type else "Not specified") ++
  "\n- Main Concerns: " ++ (if concerns ≠ "" then concerns else "General skincare") ++
  "\n- Budget Range: " ++ (if budget ≠ "" then budget else "Not specified") ++
  "\n\nPlease provide personalized recommendations and let me know about purchasing options.\n"

/-- First assistant message of the skincare consultation (lines 309–338). -/
def skincare_recommendation_message : String :=
  "\nI'd be happy to help you with personalized skincare recommendations! Based on your skin type and concerns, I can suggest products that would work well for you.\n\n" ++
  "Here are my recommendations:\n\n🧴 **Recommended Products:**\n\nFor your skin type and concerns, I suggest:\n" ++
  "1. **Gentle Cleanser** - Daily use, morning and evening\n2. **Hydrating Serum** - With hyaluronic acid for moisture retention  \n3. **Targeted Treatment** - For your specific concerns\n4. **Moisturizer** - Suitable for your skin type\n5. **SPF Protection** - Daily sun protection (essential!)\n\n" ++
  "💡 **Usage Tips:**\n- Start with one new product at a time\n- Patch test before full application\n- Consistency is key for best results\n\n" ++
  "🛒 **Ready to Purchase?**\nWould you like to browse and purchase these recommended products from our curated skincare collection? \n\n" ++
  "Our website offers:\n✅ Dermatologist-approved products\n✅ Customer reviews and ratings  \n✅ Detailed ingredient lists\n✅ Fast shipping and easy returns\n\n" ++
  "**Would you like me to direct you to our products page to explore these recommendations?**\n"

/-- Closing assistant message of the skincare consultation (lines 340–361). -/
def skincare_redirect_message : String :=
  "\nPerfect! I'm redirecting you to our skincare products page where you can explore all the recommended products.\n\n🔗 **Redirecting to Products Page...**\n\n" ++
  "┌─────────────────────────────────────────────┐\n│  🛒 SKINCARE PRODUCTS PAGE                  │\n│                                             │\n│  🌟 Personalized Recommendations           │\n│  💎 Premium & Drugstore Options            │\n│  📋 Detailed Product Information            │\n│  ⭐ Customer Reviews & Ratings              │\n│  🚚 Free Shipping on Orders $50+           │\n│                                             │\n│  [Click here to browse products]            │\n│  👆 https://yourwebsite.com/skincare       │\n└─────────────────────────────────────────────┘\n\n" ++
  "You'll find your personalized recommendations highlighted on the page. Each product includes detailed descriptions, ingredients, usage instructions, and customer reviews to help you make the best choice for your skin!\n\nHappy shopping! 🛍️✨\n"

/-- The `skincare_product_consultation` prompt (lines 297–362): a pure
function of its declared parameters returning the four-message script. -/
def skincare_product_consultation (skin_type concerns budget : String) : List Message :=
  [⟨.user, skincare_user_message skin_type concerns budget⟩,
   ⟨.assistant, skincare_recommendation_message⟩,
   ⟨.user, "That sounds great! Yes, I'd like to see the products page."⟩,
   ⟨.assistant, skincare_redirect_message⟩]

/-- Assistant walkthrough of the appointment workflow (lines 370–402). -/
def appointment_workflow_message (doctor_name : String) : String :=
  "\nAbsolutely! I'll guide you through booking an appointment with " ++ doctor_name ++
  ". Let me walk you through the available options:\n\n📅 **Appointment Booking Workflow**\n\n" ++
  "**Step 1: Choose Your Booking Method**\n1. 🌐 Online Booking (Fastest)\n2. 📞 Phone Booking (Personal Touch)  \n3. 📱 Mobile App (Convenient)\n\n" ++
  "**Step 2: Information You'll Need**\n✅ Your insurance information\n✅ Reason for visit\n✅ Preferred date and time\n✅ Contact information\n✅ Any current medications\n\n" ++
  "**Step 3: Appointment Confirmation**\nYou'll receive confirmation via:\n- 📧 Email confirmation\n- 📱 Text message reminder\n- 📞 Phone call (if requested)\n\n" ++
  "**Ready to proceed?** Which booking method would you prefer? I can provide direct links and detailed instructions for your chosen method.\n\n" ++
  "Additionally, I can help you:\n- Check the doctor's availability\n- Understand what to expect during your visit\n- Prepare questions for your appointment\n- Find directions to the practice\n\nHow would you like to proceed?\n"

/-- The `appointment_workflow_prompt` prompt (lines 365–403): a pure
function of its declared parameters returning the two-message script. -/
def appointment_workflow_prompt (doctor_name specialty : String) : List Message :=
  [⟨.user, "I'd like to book an appointment with " ++ doctor_name ++ " (" ++ specialty ++ "). Can you help me with the process?"⟩,
   ⟨.assistant, appointment_workflow_message doctor_name⟩]

/-- The record assembled at lines 413–418 of the source: the three call
arguments verbatim plus the literal string `now()` as timestamp. -/
def interaction_data (user_id interaction_type details : String) : Row :=
  [("user_id", user_id), ("interaction_type", interaction_type),
   ("details", details), ("timestamp", "now()")]

/-- The part of `save_user_interaction` below the line-410 client fetch
(lines 412-428): one insert of the assembled record, success string
exactly when the response carries data, faults contained as an error
string. -/
def save_user_interaction_contained (insert : Row → Except Err QueryResponse)
    (user_id interaction_type details : String) : Except Err String :=
  catchToMessage (fun e => "Error saving interaction: " ++ e)
    (do
      let response ← insert (interaction_data user_id interaction_type details)
      match response.data with
      | [] => pure "❌ Failed to save interaction"
      | _ :: _ => pure ("✅ Interaction saved successfully for user " ++ user_id))

/-- The shared lifecycle context dataclass of lines 17–20, holding the two
external clients (their concrete types abstracted). -/
structure AppContext (σ γ : Type) where
  supabase : σ
  http_client : γ

/-- One observable event of the lifespan scope: the env check, a client
construction attempt, or the HTTP client close. -/
inductive LifeEvent where
  | checkEnv
  | createSupabase (url key : String)
  | createHttp (timeout : Int)
  | closeHttp
deriving DecidableEq, Repr

/-- The ValueError message raised at line 31 of the source. -/
def lifespan_config_error : Err :=
  "SUPABASE_URL and SUPABASE_ANON_KEY environment variables are required"

/-- The lifespan env check of lines 27–31: both values read via
`os.getenv` must be truthy (present and nonempty). -/
def lifespan_env_ok (env : Env) : Prop :=
  (env "SUPABASE_URL").getD "" ≠ "" ∧ (env "SUPABASE_ANON_KEY").getD "" ≠ ""

instance (env : Env) : Decidable (lifespan_env_ok env) :=
  inferInstanceAs (Decidable (_ ∧ _))

/-- The `app_lifespan` context manager of lines 23–41, as a function of the
environment, the two (fallible) client constructors and the body run while
the context is live.  Returns the body's outcome (or the construction
fault) together with the ordered trace of lifecycle events; the `finally`
clause closes the HTTP client whenever the `try` around `yield` was
entered. -/
def app_lifespan {σ γ α : Type} (env : Env)
    (create_client : String → String → Except Err σ)
    (mkAsyncClient : Int → Except Err γ)
    (body : AppContext σ γ → Except Err α) :
    Except Err α × List LifeEvent :=
  let supabase_url := (env "SUPABASE_URL").getD ""
  let supabase_key := (env "SUPABASE_ANON_KEY").getD ""
  if supabase_url = "" ∨ supabase_key = "" then
    (.error lifespan_config_error, [.checkEnv])
  else
    match create_client supabase_url supabase_key with
    | .error e => (.error e, [.checkEnv, .createSupabase supabase_url supabase_key])
    | .ok supabase =>
      match mkAsyncClient 30 with
      | .error e => (.error e, [.checkEnv, .createSupabase supabase_url supabase_key, .createHttp 30])
      | .ok http_client =>
        (body ⟨supabase, http_client⟩,
         [.checkEnv, .createSupabase supabase_url supabase_key, .createHttp 30, .closeHttp])

/-- The required-configuration list of lines 433–438. -/
def required_env_vars : List String :=
  ["SUPABASE_URL", "SUPABASE_ANON_KEY", "DOCTOR_API_KEY", "SKIN_ANALYSIS_API_KEY"]

/-- The filter of line 440: a variable counts as missing when `os.getenv`
returns `None` or an empty string (Python truthiness). -/
def missing_vars (env : Env) : List String :=
  required_env_vars.filter (fun v => (env v).getD "" == "")

/-- Outcome of the `__main__` block: either a non-zero exit printing the
given lines, or entering `mcp.run()`. -/
inductive StartupOutcome where
  | exitWithMessage (code : Nat) (lines : List String)
  | runServer
deriving DecidableEq, Repr

/-- The `__main__` startup gate of lines 431–446. -/
def main_startup (env : Env) : StartupOutcome :=
  if missing_vars env ≠ [] then
    .exitWithMessage 1
      ["Missing required environment variables: " ++ String.intercalate ", " (missing_vars env),
       "Please set these variables before running the server."]
  else
    .runServer

/-- An invocation of one of the two registered prompts with its declared
arguments. -/
inductive PromptCall where
  | skincare (skin_type concerns budget : String)
  | appointment (doctor_name specialty : String)

/-- FastMCP prompt dispatch: a prompt handler receives only its declared
parameters — the live lifecycle context is not injected (the source prompt
functions take no `ctx` and never call `mcp.get_context()`). -/
def dispatch_prompt {σ γ : Type} (ctx : AppContext σ γ) : PromptCall → List Message
  | .skincare skin_type concerns budget => skincare_product_consultation skin_type concerns budget
  | .appointment doctor_name specialty => appointment_workflow_prompt doctor_name specialty

/-- The `str(e)` rendering of the fault raised by subscripting an
`AppContext` dataclass instance. -/
def type_error_not_subscriptable : Err :=
  "TypeError: 'AppContext' object is not subscriptable"

/-- Python subscription `lifespan_context[key]` where the lifespan context
is the `AppContext` value yielded at line 39: a `@dataclass` defines no
`__getitem__`, so the subscription raises `TypeError` on every key,
whatever client type `alpha` the use site expects. -/
def lifespan_context_getitem {σ γ : Type} (_ctx : AppContext σ γ) (_key : String)
    (alpha : Type) : Except Err alpha :=
  .error type_error_not_subscriptable

/-- The `user://profile/{user_id}` resource handler as the source writes
it (lines 54-75): the pre-`try` client fetch
`ctx.request_context.lifespan_context["supabase"]` of lines 56-57 — a
subscript on the AppContext dataclass, raising an uncaught `TypeError` —
then the contained part. -/
def get_user_profile {σ γ : Type} (ctx : AppContext σ γ) (user_id : String) :
    Except Err String :=
  match lifespan_context_getitem ctx "supabase" (QuerySpec → Except Err QueryResponse) with
  | .error e => .error e
  | .ok supabase => get_user_profile_contained supabase user_id

/-- The `user://medical-history/{user_id}` resource handler as the source
writes it (lines 78-100): the pre-`try` dataclass subscript of lines
81-82, then the contained part. -/
def get_user_medical_history {σ γ : Type} (ctx : AppContext σ γ) (user_id : String) :
    Except Err String :=
  match lifespan_context_getitem ctx "supabase" (QuerySpec → Except Err QueryResponse) with
  | .error e => .error e
  | .ok supabase => get_user_medical_history_contained supabase user_id

/-- The `search_nearby_doctors` tool as the source writes it
(lines 104-162): the line-113 dataclass subscript for the HTTP client
comes before the key check and the `try`, so it propagates its
`TypeError` with no request issued. -/
def search_nearby_doctors {σ γ : Type} (ctx : AppContext σ γ) (env : Env)
    (latitude longitude : Int) (specialty : String) (radius_miles : Int) :
    Except Err String × List HttpRequest :=
  match lifespan_context_getitem ctx "http_client" (HttpRequest → Except Err HttpResponse) with
  | .error e => (.error e, [])
  | .ok http => search_nearby_doctors_contained env http latitude longitude specialty radius_miles

/-- The `get_doctor_availability` tool as the source writes it
(lines 165-197): the line-168 dataclass subscript, outside the `try`,
then the contained part. -/
def get_doctor_availability {σ γ : Type} (ctx : AppContext σ γ) (env : Env)
    (doctor_id : String) : Except Err String × List HttpRequest :=
  match lifespan_context_getitem ctx "http_client" (HttpRequest → Except Err HttpResponse) with
  | .error e => (.error e, [])
  | .ok http => get_doctor_availability_contained env http doctor_id

/-- The `analyze_skin_condition_image` tool as the source writes it
(lines 200-259): the line-203 dataclass subscript, outside the `try`,
then the contained part. -/
def analyze_skin_condition_image {σ γ : Type} (ctx : AppContext σ γ) (env : Env)
    (image_data : String) : Except Err String × List HttpRequest :=
  match lifespan_context_getitem ctx "http_client" (HttpRequest → Except Err HttpResponse) with
  | .error e => (.error e, [])
  | .ok http => analyze_skin_condition_image_contained env http image_data

/-- The `save_user_interaction` tool as the source writes it
(lines 407-428): the line-410 dataclass subscript, outside the `try`,
then the contained part. -/
def save_user_interaction {σ γ : Type} (ctx : AppContext σ γ)
    (user_id interaction_type details : String) : Except Err String :=
  match lifespan_context_getitem ctx "supabase" (Row → Except Err QueryResponse) with
  | .error e => .error e
  | .ok supabase => save_user_interaction_contained supabase user_id interaction_type details

/-- A catch-all `except` clause always yields an ordinary string result. -/
theorem catchToMessage_ok (render : Err → String) (body : Except Err String) :
    ∃ s, catchToMessage render body = .ok s := by
  cases body with
  | ok s => exact ⟨s, rfl⟩
  | error e => exact ⟨render e, rfl⟩

/-- The lexicographic boolean order on character lists is total. -/
theorem listLeB_total : ∀ a b : List Char, listLeB a b = true ∨ listLeB b a = true := by
  intro a
  induction a with
  | nil => intro b; left; rfl
  | cons x xs ih =>
    intro b
    cases b with
    | nil => right; rfl
    | cons y ys =>
      simp only [listLeB, charLtB, Bool.or_eq_true, decide_eq_true_eq, Bool.and_eq_true,
        beq_iff_eq]
      rcases Nat.lt_trichotomy x.toNat y.toNat with h | h | h
      · exact Or.inl (Or.inl h)
      · rcases ih ys with h2 | h2
        · exact Or.inl (Or.inr ⟨h, h2⟩)
        · exact Or.inr (Or.inr ⟨h.symm, h2⟩)
      · exact Or.inr (Or.inl h)

/-- The lexicographic boolean order on character lists is transitive. -/
theorem listLeB_trans : ∀ a b c : List Char,
    listLeB a b = true → listLeB b c = true → listLeB a c = true := by
  intro a
  induction a with
  | nil => intro b c _ _; rfl
  | cons x xs ih =>
    intro b c hab hbc
    cases b with
    | nil => simp [listLeB] at hab
    | cons y ys =>
      cases c with
      | nil => simp [listLeB] at hbc
      | cons z zs =>
        simp only [listLeB, charLtB, Bool.or_eq_true, decide_eq_true_eq, Bool.and_eq_true,
          beq_iff_eq] at hab hbc ⊢
        rcases hab with h1 | ⟨h1, h1'⟩
        · rcases hbc with h2 | ⟨h2, _⟩
          · exact Or.inl (Nat.lt_trans h1 h2)
          · exact Or.inl (by omega)
        · rcases hbc with h2 | ⟨h2, h2'⟩
          · exact Or.inl (by omega)
          · exact Or.inr ⟨by omega, ih ys zs h1' h2'⟩

instance (col : String) : IsTotal Row (descOn col) :=
  ⟨fun a b => by
    rcases listLeB_total (orderKey col b).data (orderKey col a).data with h | h
    · exact Or.inl h
    · exact Or.inr h⟩

instance (col : String) : IsTrans Row (descOn col) :=
  ⟨fun _ _ _ hab hbc => listLeB_trans _ _ _ hbc hab⟩

/-- Rendering the enumerated practitioners yields one entry per input. -/
theorem render_doctors_length : ∀ (l : List (Nat × Json)) (ys : List String),
    render_doctors l = .ok ys → ys.length = l.length := by
  intro l
  induction l with
  | nil =>
    intro ys h
    simp only [render_doctors] at h
    cases h
    rfl
  | cons p rest ih =>
    intro ys h
    simp only [render_doctors] at h
    cases hr : render_doctor p.1 p.2 with
    | error e =>
      rw [hr] at h
      simp [Bind.bind, Except.bind] at h
    | ok s =>
      rw [hr] at h
      cases hrest : render_doctors rest with
      | error e =>
        rw [hrest] at h
        simp [Bind.bind, Except.bind, Functor.map, Except.map] at h
      | ok ss =>
        rw [hrest] at h
        simp only [Bind.bind, Except.bind, Functor.map, Except.map, Pure.pure,
          Except.pure, Except.ok.injEq] at h
        subst h
        simp [ih ss hrest]

/-- Appending to a string with nonempty text never yields the empty string. -/
theorem append_ne_empty_right (s t : String) (h : t.data ≠ []) : s ++ t ≠ "" := by
  intro he
  have hd := congrArg String.data he
  rw [String.data_append] at hd
  rcases List.append_eq_nil.mp hd with ⟨_, h2⟩
  exact h h2

/-- The code below the pre-`try` client fetch contains its faults: with
arbitrary (hence arbitrarily fault-raising) data-store and HTTP clients
and arbitrary inputs, every contained handler part returns an ordinary
`.ok` string (the one client-free tool returns a nonempty string and has
no fault to contain).  In the program this code is unreachable: the
source-named handlers fault at the dataclass subscript first. -/
theorem handler_bodies_contain_faults
    (execute : QuerySpec → Except Err QueryResponse)
    (insert : Row → Except Err QueryResponse)
    (http : HttpRequest → Except Err HttpResponse) (env : Env)
    (user_id interaction_type details image_data doctor_id specialty
      doctor_name practice_website : String)
    (latitude longitude : Int) (radius_miles : Int) :
    (∃ s, get_user_profile_contained execute user_id = .ok s) ∧
    (∃ s, get_user_medical_history_contained execute user_id = .ok s) ∧
    (∃ s, (search_nearby_doctors_contained env http latitude longitude specialty radius_miles).1 = .ok s) ∧
    (∃ s, (get_doctor_availability_contained env http doctor_id).1 = .ok s) ∧
    (∃ s, (analyze_skin_condition_image_contained env http image_data).1 = .ok s) ∧
    (∃ s, save_user_interaction_contained insert user_id interaction_type details = .ok s) ∧
    create_appointment_booking_resource doctor_name practice_website ≠ "" := by
  refine ⟨catchToMessage_ok _ _, catchToMessage_ok _ _, ?_, ?_, ?_, catchToMessage_ok _ _, ?_⟩
  · by_cases h : (env "DOCTOR_API_KEY").getD "" = ""
    · simp only [search_nearby_doctors_contained, if_pos h]
      exact ⟨_, rfl⟩
    · simp only [search_nearby_doctors_contained, if_neg h]
      exact catchToMessage_ok _ _
  · simp only [get_doctor_availability_contained]
    exact catchToMessage_ok _ _
  · by_cases h : (env "SKIN_ANALYSIS_API_KEY").getD "" = ""
    · simp only [analyze_skin_condition_image_contained, if_pos h]
      exact ⟨_, rfl⟩
    · simp only [analyze_skin_condition_image_contained, if_neg h]
      exact catchToMessage_ok _ _
  · exact append_ne_empty_right _ _ (by decide)

/-- An environment with no variable set. -/
def env_none : Env := fun _ => none

/-- An environment with every variable set to a nonempty value. -/
def env_all_set : Env := fun _ => some "value"

/-- An environment where `DOCTOR_API_KEY` is absent but `SUPABASE_URL` is
present with an empty value (the other two keys are set and nonempty). -/
def env_empty_url : Env := fun k =>
  if k = "SUPABASE_URL" then some "" else
  if k = "SUPABASE_ANON_KEY" then some "anon" else
  if k = "SKIN_ANALYSIS_API_KEY" then some "skin" else none

/-- An HTTP client answering every request with an empty 200 response. -/
def http_ok_null : HttpRequest → Except Err HttpResponse :=
  fun _ => .ok ⟨200, .ok Json.null⟩

/-- The contained part of `get_doctor_availability` performs no key
check: with no `DOCTOR_API_KEY` configured it still issues its request and
returns the mock availability text, never a "not configured" string.
(Unreachable in the program: the line-168 fetch faults first.) -/
theorem availability_body_ignores_key :
    (get_doctor_availability_contained env_none http_ok_null "d1").2 =
      [availability_request env_none "d1"] ∧
    (get_doctor_availability_contained env_none http_ok_null "d1").1 =
      .ok (mock_availability "d1") ∧
    ¬ strContains (mock_availability "d1") "not configured" := by
  refine ⟨rfl, rfl, by set_option maxRecDepth 8192 in decide⟩

/-- The key gates of the contained tool parts: the contained parts of
`search_nearby_doctors` and `analyze_skin_condition_image` return the
"not configured" string with no HTTP request issued when the key is absent
(or empty); the contained part of `get_doctor_availability` has no such
gate — it issues exactly one request regardless of the key and, on any
successful response, returns the mock text.  (All unreachable in the
program: the pre-`try` fetch faults first.) -/
theorem key_gate_of_bodies :
    (∀ (env : Env) (http : HttpRequest → Except Err HttpResponse)
        (latitude longitude : Int) (specialty : String) (radius_miles : Int),
      (env "DOCTOR_API_KEY").getD "" = "" →
      search_nearby_doctors_contained env http latitude longitude specialty radius_miles =
        (.ok "Doctor API key not configured. Please contact administrator.", [])) ∧
    (∀ (env : Env) (http : HttpRequest → Except Err HttpResponse) (image_data : String),
      (env "SKIN_ANALYSIS_API_KEY").getD "" = "" →
      analyze_skin_condition_image_contained env http image_data =
        (.ok "Skin analysis API not configured. Please contact administrator.", [])) ∧
    (∀ (env : Env) (http : HttpRequest → Except Err HttpResponse) (doctor_id : String),
      (get_doctor_availability_contained env http doctor_id).2 = [availability_request env doctor_id] ∧
      ∀ resp, http (availability_request env doctor_id) = .ok resp →
        (get_doctor_availability_contained env http doctor_id).1 = .ok (mock_availability doctor_id)) := by
  refine ⟨?_, ?_, ?_⟩
  · intro env http latitude longitude specialty radius_miles h
    simp only [search_nearby_doctors_contained, if_pos h]
  · intro env http image_data h
    simp only [analyze_skin_condition_image_contained, if_pos h]
  · intro env http doctor_id
    refine ⟨rfl, ?_⟩
    intro resp h
    simp only [get_doctor_availability_contained, catchToMessage, h, Bind.bind, Except.bind,
      Functor.map, Except.map, Pure.pure, Except.pure]

/-- The key gates of the contained tool parts, checked at concrete inputs. -/
theorem key_gate_of_bodies_check :
    search_nearby_doctors_contained env_none http_ok_null 40 (-73) "general" 10 =
      (.ok "Doctor API key not configured. Please contact administrator.", []) ∧
    analyze_skin_condition_image_contained env_none http_ok_null "aW1n" =
      (.ok "Skin analysis API not configured. Please contact administrator.", []) ∧
    (get_doctor_availability_contained env_none http_ok_null "d2").1 = .ok (mock_availability "d2") :=
  ⟨key_gate_of_bodies.1 env_none http_ok_null 40 (-73) "general" 10 rfl,
   key_gate_of_bodies.2.1 env_none http_ok_null "aW1n" rfl,
   (key_gate_of_bodies.2.2 env_none http_ok_null "d2").2 ⟨200, .ok Json.null⟩ rfl⟩

/-- C3 counterexample: in `env_empty_url` the only absent required key is
`DOCTOR_API_KEY`, yet the startup output also names `SUPABASE_URL`, which
is present (with an empty value) — so the output does not name exactly the
absent keys. -/
theorem claim_startup_gate_counterexample :
    (∃ v ∈ required_env_vars, env_empty_url v = none) ∧
    required_env_vars.filter (fun v => env_empty_url v == none) = ["DOCTOR_API_KEY"] ∧
    missing_vars env_empty_url = ["SUPABASE_URL", "DOCTOR_API_KEY"] ∧
    env_empty_url "SUPABASE_URL" ≠ none ∧
    main_startup env_empty_url = .exitWithMessage 1
      ["Missing required environment variables: SUPABASE_URL, DOCTOR_API_KEY",
       "Please set these variables before running the server."] := by
  refine ⟨⟨"DOCTOR_API_KEY", by decide, by decide⟩, by decide, by decide, by decide, by decide⟩

/-- C3 amended: a required key counts as missing when it is absent or set
to the empty string; if any of the four is missing in that sense, startup
exits with code 1 naming exactly the missing ones (in the fixed list
order), and otherwise the server runs. -/
theorem claim_startup_gate_amended (env : Env) :
    (∀ v, v ∈ missing_vars env ↔ v ∈ required_env_vars ∧ (env v).getD "" = "") ∧
    (missing_vars env ≠ [] →
      main_startup env = .exitWithMessage 1
        ["Missing required environment variables: " ++
           String.intercalate ", " (missing_vars env),
         "Please set these variables before running the server."]) ∧
    (missing_vars env = [] → main_startup env = .runServer) := by
  refine ⟨?_, ?_, ?_⟩
  · intro v
    simp [missing_vars, List.mem_filter]
  · intro h
    simp only [main_startup, if_pos h]
  · intro h
    simp [main_startup, h]

/-- C3 amended, witnessed: the mixed environment exits 1 naming its two
missing-in-the-amended-sense keys; the fully set environment runs. -/
theorem claim_startup_gate_amended_witness :
    main_startup env_empty_url = .exitWithMessage 1
      ["Missing required environment variables: " ++
         String.intercalate ", " (missing_vars env_empty_url),
       "Please set these variables before running the server."] ∧
    main_startup env_all_set = .runServer :=
  ⟨(claim_startup_gate_amended env_empty_url).2.1 (by decide),
   (claim_startup_gate_amended env_all_set).2.2 (by decide)⟩

/-- C4: the lifespan scope never closes the HTTP client twice, and once the
context is live (env check passed, both clients constructed) the close
event occurs exactly once on exit — for every body outcome, normal or an
unhandled fault. -/
theorem claim_lifespan_close_once {σ γ α : Type} (env : Env)
    (create_client : String → String → Except Err σ)
    (mkAsyncClient : Int → Except Err γ)
    (body : AppContext σ γ → Except Err α) :
    ((app_lifespan env create_client mkAsyncClient body).2.count .closeHttp ≤ 1) ∧
    (lifespan_env_ok env →
      ∀ supabase, create_client ((env "SUPABASE_URL").getD "")
          ((env "SUPABASE_ANON_KEY").getD "") = .ok supabase →
      ∀ http_client, mkAsyncClient 30 = .ok http_client →
      (app_lifespan env create_client mkAsyncClient body).2.count .closeHttp = 1) := by
  constructor
  · by_cases h : (env "SUPABASE_URL").getD "" = "" ∨ (env "SUPABASE_ANON_KEY").getD "" = ""
    · simp [app_lifespan, h, List.count_cons, List.count_nil, beq_iff_eq]
    · cases hc : create_client ((env "SUPABASE_URL").getD "") ((env "SUPABASE_ANON_KEY").getD "") with
      | error e =>
        simp [app_lifespan, h, hc, List.count_cons, List.count_nil, beq_iff_eq]
      | ok s =>
        cases hm : mkAsyncClient 30 with
        | error e =>
          simp [app_lifespan, h, hc, hm, List.count_cons, List.count_nil, beq_iff_eq]
        | ok hcl =>
          simp [app_lifespan, h, hc, hm, List.count_cons, List.count_nil, beq_iff_eq]
  · intro hok supabase hc http_client hm
    have h : ¬ ((env "SUPABASE_URL").getD "" = "" ∨ (env "SUPABASE_ANON_KEY").getD "" = "") := by
      rcases hok with ⟨h1, h2⟩
      tauto
    simp [app_lifespan, h, hc, hm, List.count_cons, List.count_nil, beq_iff_eq]

/-- C4, witnessed with a body that raises an unhandled fault while the
context is live: the trace still records exactly one close. -/
theorem claim_lifespan_close_once_witness :
    lifespan_env_ok env_all_set ∧
    (app_lifespan env_all_set (fun _ _ => (.ok 0 : Except Err Nat))
      (fun _ => (.ok 0 : Except Err Nat))
      (fun _ => (.error "unhandled fault in server loop" : Except Err Nat))).2.count
        .closeHttp = 1 :=
  ⟨by decide,
   (claim_lifespan_close_once env_all_set _ _ _).2 (by decide) 0 rfl 0 rfl⟩

/-- C5: the env check precedes any client construction (a failed check
yields the configuration fault with no construction event and prevents
startup); when it passes, the data-store client is constructed first, then
the HTTP client with the fixed timeout 30, each attempted at most once
(no retry), and a constructor fault aborts the scope with that fault. -/
theorem claim_lifespan_init_order {σ γ α : Type} (env : Env)
    (create_client : String → String → Except Err σ)
    (mkAsyncClient : Int → Except Err γ)
    (body : AppContext σ γ → Except Err α) :
    (¬ lifespan_env_ok env →
      app_lifespan env create_client mkAsyncClient body =
        (.error lifespan_config_error, [.checkEnv])) ∧
    (lifespan_env_ok env →
      (∀ e, create_client ((env "SUPABASE_URL").getD "")
          ((env "SUPABASE_ANON_KEY").getD "") = .error e →
        app_lifespan env create_client mkAsyncClient body =
          (.error e, [.checkEnv,
            .createSupabase ((env "SUPABASE_URL").getD "") ((env "SUPABASE_ANON_KEY").getD "")])) ∧
      (∀ supabase, create_client ((env "SUPABASE_URL").getD "")
          ((env "SUPABASE_ANON_KEY").getD "") = .ok supabase →
        (∀ e, mkAsyncClient 30 = .error e →
          app_lifespan env create_client mkAsyncClient body =
            (.error e, [.checkEnv,
              .createSupabase ((env "SUPABASE_URL").getD "") ((env "SUPABASE_ANON_KEY").getD ""),
              .createHttp 30])) ∧
        (∀ http_client, mkAsyncClient 30 = .ok http_client →
          app_lifespan env create_client mkAsyncClient body =
            (body ⟨supabase, http_client⟩, [.checkEnv,
              .createSupabase ((env "SUPABASE_URL").getD "") ((env "SUPABASE_ANON_KEY").getD ""),
              .createHttp 30, .closeHttp])))) ∧
    ((app_lifespan env create_client mkAsyncClient body).2.countP
      (fun ev => match ev with | .createSupabase _ _ => true | _ => false) ≤ 1) ∧
    ((app_lifespan env create_client mkAsyncClient body).2.countP
      (fun ev => match ev with | .createHttp _ => true | _ => false) ≤ 1) ∧
    (∀ t, LifeEvent.createHttp t ∈ (app_lifespan env create_client mkAsyncClient body).2 →
      t = 30) := by
  refine ⟨?_, ?_, ?_, ?_, ?_⟩
  · intro hnot
    have h : (env "SUPABASE_URL").getD "" = "" ∨ (env "SUPABASE_ANON_KEY").getD "" = "" := by
      by_contra hcon
      push_neg at hcon
      exact hnot ⟨hcon.1, hcon.2⟩
    simp [app_lifespan, h]
  · intro hok
    have h : ¬ ((env "SUPABASE_URL").getD "" = "" ∨ (env "SUPABASE_ANON_KEY").getD "" = "") := by
      rcases hok with ⟨h1, h2⟩
      tauto
    refine ⟨?_, ?_⟩
    · intro e hc
      simp [app_lifespan, h, hc]
    · intro supabase hc
      refine ⟨?_, ?_⟩
      · intro e hm
        simp [app_lifespan, h, hc, hm]
      · intro http_client hm
        simp [app_lifespan, h, hc, hm]
  · by_cases h : (env "SUPABASE_URL").getD "" = "" ∨ (env "SUPABASE_ANON_KEY").getD "" = ""
    · simp [app_lifespan, h, List.countP_cons, List.countP_nil]
    · cases hc : create_client ((env "SUPABASE_URL").getD "") ((env "SUPABASE_ANON_KEY").getD "") with
      | error e => simp [app_lifespan, h, hc, List.countP_cons, List.countP_nil]
      | ok s =>
        cases hm : mkAsyncClient 30 with
        | error e => simp [app_lifespan, h, hc, hm, List.countP_cons, List.countP_nil]
        | ok hcl => simp [app_lifespan, h, hc, hm, List.countP_cons, List.countP_nil]
  · by_cases h : (env "SUPABASE_URL").getD "" = "" ∨ (env "SUPABASE_ANON_KEY").getD "" = ""
    · simp [app_lifespan, h, List.countP_cons, List.countP_nil]
    · cases hc : create_client ((env "SUPABASE_URL").getD "") ((env "SUPABASE_ANON_KEY").getD "") with
      | error e => simp [app_lifespan, h, hc, List.countP_cons, List.countP_nil]
      | ok s =>
        cases hm : mkAsyncClient 30 with
        | error e => simp [app_lifespan, h, hc, hm, List.countP_cons, List.countP_nil]
        | ok hcl => simp [app_lifespan, h, hc, hm, List.countP_cons, List.countP_nil]
  · intro t hmem
    by_cases h : (env "SUPABASE_URL").getD "" = "" ∨ (env "SUPABASE_ANON_KEY").getD "" = ""
    · simp [app_lifespan, h] at hmem
    · cases hc : create_client ((env "SUPABASE_URL").getD "") ((env "SUPABASE_ANON_KEY").getD "") with
      | error e =>
        simp [app_lifespan, h, hc] at hmem
      | ok s =>
        cases hm : mkAsyncClient 30 with
        | error e =>
          simp [app_lifespan, h, hc, hm] at hmem
          exact hmem
        | ok hcl =>
          simp [app_lifespan, h, hc, hm] at hmem
          exact hmem

/-- C5, witnessed: the empty environment fails the check with no
construction event, and a fully set environment runs the body between the
ordered construction and close events. -/
theorem claim_lifespan_init_order_witness :
    app_lifespan env_none (fun _ _ => (.ok 0 : Except Err Nat))
      (fun _ => (.ok 0 : Except Err Nat)) (fun _ => (.ok 0 : Except Err Nat)) =
      (.error lifespan_config_error, [.checkEnv]) ∧
    app_lifespan env_all_set (fun _ _ => (.ok 1 : Except Err Nat))
      (fun _ => (.ok 2 : Except Err Nat))
      (fun ctx => (.ok ctx.supabase : Except Err Nat)) =
      (.ok 1, [.checkEnv, .createSupabase "value" "value", .createHttp 30, .closeHttp]) :=
  ⟨(claim_lifespan_init_order env_none _ _ _).1 (by decide),
   (((claim_lifespan_init_order env_all_set _ _ _).2.1 (by decide)).2 1 rfl).2 2 rfl⟩

/-- A concrete store with three medical records (inserted out of time
order, one belonging to another user) and an unrelated users row. -/
def hist_store : Store :=
  [("medical_records", [("user_id", "7"), ("created_at", "2023-01-10"), ("condition", "flu")]),
   ("users", [("id", "7"), ("full_name", "Gail Chen")]),
   ("medical_records", [("user_id", "7"), ("created_at", "2024-06-01"), ("condition", "sprain")]),
   ("medical_records", [("user_id", "8"), ("created_at", "2025-01-01")])]

/-- The contained part of the medical-history handler issues exactly one
query — against `medical_records`, keyed by the user id, ordered
descending on `created_at` (its result is this part's only dependency on
the client); the executed query's rows are exactly the matching records,
pairwise ordered most-recent-first for every store (hence for any
permutation of insertion order); a nonempty result renders the records in
query order joined by newlines, each closed by the visible `---`
delimiter, with the fixed placeholders substituted for missing fields.
(Unreachable in the program: the line-82 fetch faults first.) -/
theorem history_body_single_query (store : Store) (user_id : String) :
    (medical_records_query user_id =
      ⟨"medical_records", "*", [("user_id", user_id)], some ("created_at", true)⟩) ∧
    (∀ execute execute' : QuerySpec → Except Err QueryResponse,
      execute (medical_records_query user_id) = execute' (medical_records_query user_id) →
      get_user_medical_history_contained execute user_id = get_user_medical_history_contained execute' user_id) ∧
    List.Pairwise (descOn "created_at") (storeExec store (medical_records_query user_id)).data ∧
    (storeExec store (medical_records_query user_id)).data.Perm
      ((store.filter (fun tr =>
        tr.1 == "medical_records" && rowMatches [("user_id", user_id)] tr.2)).map (·.2)) ∧
    ((storeExec store (medical_records_query user_id)).data ≠ [] →
      get_user_medical_history_contained (dbExec store) user_id =
        .ok ("Medical History for User " ++ user_id ++ ":\n" ++
          String.intercalate "\n"
            (((storeExec store (medical_records_query user_id)).data).map
              history_record_template))) ∧
    (∀ r : Row, strContains (history_record_template r) "---") ∧
    (history_record_template [] =
      "\nDate: Unknown\nCondition: N/A\nTreatment: N/A\nDoctor: N/A\nNotes: No notes\n---") := by
  refine ⟨rfl, ?_, ?_, ?_, ?_, ?_, rfl⟩
  · intro execute execute' h
    simp only [get_user_medical_history_contained, get_user_medical_history_body, h]
  · simp only [storeExec, medical_records_query]
    exact List.sorted_insertionSort _ _
  · simp only [storeExec, medical_records_query]
    exact List.perm_insertionSort _ _
  · intro hne
    cases hrows : (storeExec store (medical_records_query user_id)).data with
    | nil => exact absurd hrows hne
    | cons r rest =>
      simp only [get_user_medical_history_contained, get_user_medical_history_body, dbExec, catchToMessage,
        Bind.bind, Except.bind, Functor.map, Except.map, Pure.pure, Except.pure, hrows]
  · intro r
    refine ⟨("\nDate: " ++ rowGet r "created_at" "Unknown" ++
      "\nCondition: " ++ rowGet r "condition" "N/A" ++
      "\nTreatment: " ++ rowGet r "treatment" "N/A" ++
      "\nDoctor: " ++ rowGet r "doctor_name" "N/A" ++
      "\nNotes: " ++ rowGet r "notes" "No notes" ++ "\n").data, [], ?_⟩
    simp [history_record_template, String.data_append]

/-- The contained medical-history part checked on a concrete store whose
records were inserted oldest first: it renders them most-recent-first. -/
theorem history_body_single_query_check :
    (storeExec hist_store (medical_records_query "7")).data ≠ [] ∧
    get_user_medical_history_contained (dbExec hist_store) "7" =
      .ok ("Medical History for User 7:\n" ++
        String.intercalate "\n"
          (((storeExec hist_store (medical_records_query "7")).data).map
            history_record_template)) :=
  ⟨by decide, (history_body_single_query hist_store "7").2.2.2.2.1 (by decide)⟩

/-- Prepending nonempty text to a string never yields the empty string. -/
theorem append_ne_empty_left (s t : String) (h : s.data ≠ []) : s ++ t ≠ "" := by
  intro he
  have hd := congrArg String.data he
  rw [String.data_append] at hd
  rcases List.append_eq_nil.mp hd with ⟨h1, _⟩
  exact h h1

/-- The backing row of the C7 example store for id 42. -/
def profile_row_42 : Row :=
  [("id", "42"), ("full_name", "Alice Smith"), ("email", "alice@example.com"), ("age", "34")]

/-- A store containing exactly one users row, for id 42. -/
def profile_store_42 : Store := [("users", profile_row_42)]

/-- On any store with no matching record the contained Resource parts
return their (nonempty) not-found strings, not a fault; the contained
profile part for id 42 over a store holding one row for id 42 returns a
string containing that row's name and email, and over the empty store
returns the string "No user found with ID: 42".  (Unreachable in the
program: the lines-57/82 fetches fault first.) -/
theorem resource_bodies_not_found (store : Store) (user_id : String) :
    ((∀ p ∈ store, p.1 = "users" → rowMatches [("id", user_id)] p.2 = false) →
      get_user_profile_contained (dbExec store) user_id =
        .ok ("No user found with ID: " ++ user_id) ∧
      ("No user found with ID: " ++ user_id : String) ≠ "") ∧
    ((∀ p ∈ store, p.1 = "medical_records" → rowMatches [("user_id", user_id)] p.2 = false) →
      get_user_medical_history_contained (dbExec store) user_id =
        .ok ("No medical history found for user: " ++ user_id) ∧
      ("No medical history found for user: " ++ user_id : String) ≠ "") ∧
    get_user_profile_contained (dbExec profile_store_42) "42" = .ok (profile_template profile_row_42) ∧
    strContains (profile_template profile_row_42) "Alice Smith" ∧
    strContains (profile_template profile_row_42) "alice@example.com" ∧
    get_user_profile_contained (dbExec []) "42" = .ok "No user found with ID: 42" := by
  refine ⟨?_, ?_, rfl, by decide, by decide, rfl⟩
  · intro h
    have hf : store.filter
        (fun tr => tr.1 == "users" && rowMatches [("id", user_id)] tr.2) = [] := by
      rw [List.filter_eq_nil_iff]
      intro a ha
      simp only [Bool.and_eq_true, beq_iff_eq, not_and]
      intro h1
      simp [h a ha h1]
    refine ⟨?_, append_ne_empty_left _ _ (by decide)⟩
    simp only [get_user_profile_contained, get_user_profile_body, dbExec, storeExec, users_query, hf,
      catchToMessage, Bind.bind, Except.bind, Functor.map, Except.map, Pure.pure, Except.pure,
      List.map_nil]
  · intro h
    have hf : store.filter
        (fun tr => tr.1 == "medical_records" && rowMatches [("user_id", user_id)] tr.2) = [] := by
      rw [List.filter_eq_nil_iff]
      intro a ha
      simp only [Bool.and_eq_true, beq_iff_eq, not_and]
      intro h1
      simp [h a ha h1]
    refine ⟨?_, append_ne_empty_left _ _ (by decide)⟩
    simp only [get_user_medical_history_contained, get_user_medical_history_body, dbExec, storeExec,
      medical_records_query, hf, catchToMessage, Bind.bind, Except.bind, Functor.map,
      Except.map, Pure.pure, Except.pure, List.map_nil, List.insertionSort]

/-- The contained not-found paths checked on a store whose only users row has a different id. -/
theorem resource_bodies_not_found_check :
    get_user_profile_contained (dbExec [("users", [("id", "7")])]) "42" =
      .ok "No user found with ID: 42" ∧
    get_user_medical_history_contained (dbExec [("users", [("id", "7")])]) "42" =
      .ok "No medical history found for user: 42" :=
  ⟨((resource_bodies_not_found [("users", [("id", "7")])] "42").1 (by decide)).1,
   ((resource_bodies_not_found [("users", [("id", "7")])] "42").2.1 (by decide)).1⟩

/-- On a successful external response whose `data` field holds any list
of practitioners, the contained part of the search tool renders exactly
the first `min 5 (length)` of them, in response order — never more than
five — into its text template.  (Unreachable in the program: the line-113
fetch faults first.) -/
theorem search_body_truncation (env : Env)
    (http : HttpRequest → Except Err HttpResponse)
    (latitude longitude : Int) (specialty : String) (radius_miles : Int)
    (l : List Json) (resp : HttpResponse) (entries : List String)
    (hkey : (env "DOCTOR_API_KEY").getD "" ≠ "")
    (hresp : http (search_request ((env "DOCTOR_API_KEY").getD "")
      latitude longitude specialty radius_miles) = .ok resp)
    (hstatus : resp.status < 400)
    (hjson : resp.jsonBody = .ok (.obj [("data", .arr l)]))
    (hne : l ≠ [])
    (hrender : render_doctors (List.enumFrom 1 (l.take 5)) = .ok entries) :
    (search_nearby_doctors_contained env http latitude longitude specialty radius_miles).1 =
      .ok ("🏥 Nearby Doctors Found:\n" ++ String.intercalate "\n" entries ++ search_footer) ∧
    entries.length = min 5 l.length ∧
    entries.length ≤ 5 := by
  have hlen : entries.length = min 5 l.length := by
    rw [render_doctors_length _ _ hrender, List.enumFrom_length, List.length_take]
  refine ⟨?_, hlen, by omega⟩
  have hst : ¬ 400 ≤ resp.status := not_le.mpr hstatus
  have htr : pyTruthy (.arr l) = true := by
    simp [pyTruthy, hne]
  simp only [search_nearby_doctors_contained, if_neg hkey, search_body, hresp, raise_for_status,
    if_neg hst, hjson, pyGet, pyIndex, List.lookup, BEq.beq, String.decEq, htr,
    Bool.true_eq_false, pySliceTake, hrender, catchToMessage, Bind.bind, Except.bind,
    Functor.map, Except.map, Pure.pure, Except.pure, if_false, reduceCtorEq]
  simp [htr]
  rw [hrender]

/-- The environment configuring only the doctor-directory key. -/
def env_doctor_key : Env := fun k => if k = "DOCTOR_API_KEY" then some "k1" else none

/-- The practitioner list returned by the stub search service: seven
empty practitioner objects. -/
def seven_doctors : List Json := List.replicate 7 (Json.obj [])

/-- The HTTP client answering every request with a 200 response carrying
the seven practitioners. -/
def http_seven_doctors : HttpRequest → Except Err HttpResponse :=
  fun _ => .ok ⟨200, .ok (.obj [("data", .arr seven_doctors)])⟩

/-- The entry the search template renders for an empty practitioner
object at position `i`. -/
def blank_doctor_entry (i : Nat) : String :=
  "\n" ++ toString i ++
  ". Dr.  \n   Specialty: \n   Practice: N/A\n   Address: N/A\n   Phone: N/A\n   Distance: N/A miles\n   Rating: \n   \n   Website: No website available\n   Accepts New Patients: No\n"

/-- The contained truncation checked concretely: of seven returned
practitioners, exactly the first five are rendered. -/
theorem search_body_truncation_check :
    (search_nearby_doctors_contained env_doctor_key http_seven_doctors 40 (-73) "general" 10).1 =
      .ok ("🏥 Nearby Doctors Found:\n" ++
        String.intercalate "\n" ([1, 2, 3, 4, 5].map blank_doctor_entry) ++ search_footer) ∧
    ([1, 2, 3, 4, 5].map blank_doctor_entry).length = min 5 seven_doctors.length :=
  ⟨(search_body_truncation env_doctor_key http_seven_doctors 40 (-73) "general" 10
      seven_doctors ⟨200, .ok (.obj [("data", .arr seven_doctors)])⟩
      ([1, 2, 3, 4, 5].map blank_doctor_entry)
      (by decide) rfl (by decide) rfl (by simp [seven_doctors])
      (by unfold seven_doctors; exact rfl)).1,
   (search_body_truncation env_doctor_key http_seven_doctors 40 (-73) "general" 10
      seven_doctors ⟨200, .ok (.obj [("data", .arr seven_doctors)])⟩
      ([1, 2, 3, 4, 5].map blank_doctor_entry)
      (by decide) rfl (by decide) rfl (by simp [seven_doctors])
      (by unfold seven_doctors; exact rfl)).2.1⟩

/-- C9: prompt dispatch never reads the lifecycle context — for any two
contexts over any client types the dispatched messages agree — and each
prompt is the pure function of its declared parameters given by its
source template, returning the fixed user/assistant role sequence. -/
theorem claim_prompts_pure {σ γ : Type} (ctx ctx' : AppContext σ γ) (call : PromptCall)
    (skin_type concerns budget doctor_name specialty : String) :
    dispatch_prompt ctx call = dispatch_prompt ctx' call ∧
    (skincare_product_consultation skin_type concerns budget).map Message.role =
      [.user, .assistant, .user, .assistant] ∧
    (appointment_workflow_prompt doctor_name specialty).map Message.role =
      [.user, .assistant] ∧
    dispatch_prompt ctx (.skincare skin_type concerns budget) =
      skincare_product_consultation skin_type concerns budget ∧
    dispatch_prompt ctx (.appointment doctor_name specialty) =
      appointment_workflow_prompt doctor_name specialty := by
  refine ⟨?_, rfl, rfl, rfl, rfl⟩
  cases call <;> rfl

/-- A string of a fixed short length never equals a longer prefixed one. -/
theorem failed_ne_success (user_id : String) :
    ("❌ Failed to save interaction" : String) ≠
      "✅ Interaction saved successfully for user " ++ user_id := by
  intro h
  have hl := congrArg String.length h
  rw [String.length_append] at hl
  have h2 : ("❌ Failed to save interaction" : String).length <
      ("✅ Interaction saved successfully for user " : String).length := by decide
  omega

/-- The record the contained part of `save_user_interaction` would insert
has exactly the four fields `user_id`, `interaction_type`, `details`
(verbatim from the call) and `timestamp`, whose value is always the fixed
literal string `now()`; the inserted record is this part's only dependency
on the client, and when the insert completes the success string is
returned exactly when the response data is nonempty (an insert fault
becomes the error string).  (Unreachable in the program: the line-410
fetch faults first.) -/
theorem save_body_record (insert insert' : Row → Except Err QueryResponse)
    (user_id interaction_type details : String) :
    (interaction_data user_id interaction_type details).map Prod.fst =
      ["user_id", "interaction_type", "details", "timestamp"] ∧
    List.lookup "user_id" (interaction_data user_id interaction_type details) = some user_id ∧
    List.lookup "interaction_type" (interaction_data user_id interaction_type details) =
      some interaction_type ∧
    List.lookup "details" (interaction_data user_id interaction_type details) = some details ∧
    List.lookup "timestamp" (interaction_data user_id interaction_type details) = some "now()" ∧
    (insert (interaction_data user_id interaction_type details) =
        insert' (interaction_data user_id interaction_type details) →
      save_user_interaction_contained insert user_id interaction_type details =
        save_user_interaction_contained insert' user_id interaction_type details) ∧
    (∀ resp, insert (interaction_data user_id interaction_type details) = .ok resp →
      (save_user_interaction_contained insert user_id interaction_type details =
          .ok ("✅ Interaction saved successfully for user " ++ user_id) ↔ resp.data ≠ [])) ∧
    (∀ e, insert (interaction_data user_id interaction_type details) = .error e →
      save_user_interaction_contained insert user_id interaction_type details =
        .ok ("Error saving interaction: " ++ e)) := by
  refine ⟨rfl, rfl, rfl, rfl, rfl, ?_, ?_, ?_⟩
  · intro h
    simp only [save_user_interaction_contained, h]
  · intro resp h
    simp only [save_user_interaction_contained, catchToMessage, h, Bind.bind, Except.bind,
      Functor.map, Except.map, Pure.pure, Except.pure]
    cases hd : resp.data with
    | nil =>
      simp only [hd, ne_eq, not_true_eq_false, iff_false]
      intro heq
      have : ("❌ Failed to save interaction" : String) =
          "✅ Interaction saved successfully for user " ++ user_id := by
        injection heq
      exact failed_ne_success user_id this
    | cons r rest =>
      simp [hd]
  · intro e h
    simp only [save_user_interaction_contained, catchToMessage, h, Bind.bind, Except.bind,
      Functor.map, Except.map, Pure.pure, Except.pure]

/-- The contained insert outcomes checked concretely: a one-row insert
response yields the success string, a faulting insert the error string. -/
theorem save_body_record_check :
    save_user_interaction_contained (fun _ => .ok ⟨[[("id", "1")]]⟩) "u1" "search" "note" =
      .ok ("✅ Interaction saved successfully for user " ++ "u1") ∧
    save_user_interaction_contained (fun _ => .error "db down") "u1" "search" "note" =
      .ok ("Error saving interaction: " ++ "db down") :=
  ⟨((save_body_record (fun _ => .ok ⟨[[("id", "1")]]⟩) (fun _ => .ok ⟨[[("id", "1")]]⟩)
      "u1" "search" "note").2.2.2.2.2.2.1 ⟨[[("id", "1")]]⟩ rfl).mpr (by decide),
   (save_body_record (fun _ => .error "db down") (fun _ => .error "db down")
      "u1" "search" "note").2.2.2.2.2.2.2 "db down" rfl⟩

/-- A live lifecycle context over concrete clients: the store-backed
data-store client and the stub HTTP client. -/
def live_ctx : AppContext (QuerySpec → Except Err QueryResponse)
    (HttpRequest → Except Err HttpResponse) :=
  ⟨dbExec hist_store, http_ok_null⟩

/-- C1: refuted in the code — every client-touching handler subscripts the
AppContext dataclass before its `try` block, so every invocation, for
every context and all inputs, propagates an uncaught `TypeError` past the
handler boundary instead of returning a contained string (the code below
the fetch would have contained its faults, per
`handler_bodies_contain_faults`). -/
theorem claim_fault_containment_bug {σ γ : Type} (ctx : AppContext σ γ) (env : Env)
    (user_id interaction_type details image_data doctor_id specialty : String)
    (latitude longitude : Int) (radius_miles : Int) :
    get_user_profile ctx user_id = .error type_error_not_subscriptable ∧
    get_user_medical_history ctx user_id = .error type_error_not_subscriptable ∧
    search_nearby_doctors ctx env latitude longitude specialty radius_miles =
      (.error type_error_not_subscriptable, []) ∧
    get_doctor_availability ctx env doctor_id =
      (.error type_error_not_subscriptable, []) ∧
    analyze_skin_condition_image ctx env image_data =
      (.error type_error_not_subscriptable, []) ∧
    save_user_interaction ctx user_id interaction_type details =
      .error type_error_not_subscriptable :=
  ⟨rfl, rfl, rfl, rfl, rfl, rfl⟩

/-- C2: refuted in the code — each key-reading tool subscripts the
AppContext dataclass before its key check, so with the key absent (as in
`env_none`) no "not configured" string is ever returned: the call raises
the `TypeError` instead (and issues no request). -/
theorem claim_missing_key_bug {σ γ : Type} (ctx : AppContext σ γ) (env : Env)
    (latitude longitude : Int) (specialty : String) (radius_miles : Int)
    (doctor_id image_data : String) :
    search_nearby_doctors ctx env latitude longitude specialty radius_miles =
      (.error type_error_not_subscriptable, []) ∧
    get_doctor_availability ctx env doctor_id =
      (.error type_error_not_subscriptable, []) ∧
    analyze_skin_condition_image ctx env image_data =
      (.error type_error_not_subscriptable, []) ∧
    env_none "DOCTOR_API_KEY" = none ∧
    search_nearby_doctors live_ctx env_none 40 (-73) "general" 10 =
      (.error type_error_not_subscriptable, []) :=
  ⟨rfl, rfl, rfl, rfl, rfl⟩

/-- C6: refuted in the code — the medical-history handler faults at the
line-82 dataclass subscript before building its query, for every context
and identifier; it never issues the ordered query or renders any record
(the unreachable contained code is characterized by
`history_body_single_query`). -/
theorem claim_history_query_bug {σ γ : Type} (ctx : AppContext σ γ) (user_id : String) :
    get_user_medical_history ctx user_id = .error type_error_not_subscriptable ∧
    get_user_medical_history live_ctx "7" = .error type_error_not_subscriptable :=
  ⟨rfl, rfl⟩

/-- C7: refuted in the code — both Resource handlers fault at the pre-`try`
dataclass subscript, so no identifier ever yields a "not found" or profile
string; in particular the id-42 examples (store with one row for id 42,
and empty store) both raise the `TypeError`. -/
theorem claim_not_found_bug {σ γ : Type} (ctx : AppContext σ γ) (user_id : String) :
    get_user_profile ctx user_id = .error type_error_not_subscriptable ∧
    get_user_medical_history ctx user_id = .error type_error_not_subscriptable ∧
    get_user_profile (AppContext.mk (dbExec profile_store_42) http_ok_null) "42" =
      .error type_error_not_subscriptable ∧
    get_user_profile (AppContext.mk (dbExec []) http_ok_null) "42" =
      .error type_error_not_subscriptable :=
  ⟨rfl, rfl, rfl, rfl⟩

/-- C8: refuted in the code — the search tool faults at the line-113
dataclass subscript before any HTTP call, so its success path never runs:
even with the key configured and a client ready to answer with seven
practitioners, no entry is ever rendered (the unreachable truncation logic
is characterized by `search_body_truncation`). -/
theorem claim_search_truncation_bug {σ γ : Type} (ctx : AppContext σ γ) (env : Env)
    (latitude longitude : Int) (specialty : String) (radius_miles : Int) :
    search_nearby_doctors ctx env latitude longitude specialty radius_miles =
      (.error type_error_not_subscriptable, []) ∧
    search_nearby_doctors (AppContext.mk (dbExec []) http_seven_doctors)
      env_doctor_key 40 (-73) "general" 10 =
      (.error type_error_not_subscriptable, []) :=
  ⟨rfl, rfl⟩

/-- C10: refuted in the code — `save_user_interaction` faults at the
line-410 dataclass subscript before assembling the record, for every
context and arguments; nothing is ever inserted and no success, failure or
contained-error string is returned (the unreachable contained code is
characterized by `save_body_record`). -/
theorem claim_save_interaction_bug {σ γ : Type} (ctx : AppContext σ γ)
    (user_id interaction_type details : String) :
    save_user_interaction ctx user_id interaction_type details =
      .error type_error_not_subscriptable ∧
    save_user_interaction live_ctx "u1" "search" "note" =
      .error type_error_not_subscriptable :=
  ⟨rfl, rfl⟩
